import Mathlib

/-!
Verification of the OSS object-storage adapter (pkg/objstore/oss/oss.go).

The Go file implements an Aliyun-OSS backend for the objstore.Bucket
interface.  This development gives a shallow embedding of its operations:

* Config and Config.validate mirror the yaml config struct and its check.
* getRange / Get / GetRange mirror the byte-range translation: the embedding
  records, instead of performing, the backend call, returning either the
  early local error or the (name, range options) request that would be sent
  to bkt.GetObject.
* setRange mirrors the (unused) range validator defined at the bottom of the
  Go file.
* Upload mirrors Bucket.Upload: the reader is a list of Read results, the
  local filesystem and the backend are oracles (UploadEnv) saying which of
  the side-effecting steps fail, and the result records the Go outcome
  (panic / returned error / nil) together with which side effects ran.
* Iter mirrors Bucket.Iter: the backend is a function from (dir, marker) to
  a ListObjects result, and the embedding additionally records the exact
  sequence of entries handed to the visitor.
* IsObjNotFoundErr mirrors the substring classifier, with strContains an
  executable model of strings.Contains.
-/

/-- Config mirrors the Go struct Config: the four yaml connection fields. -/
structure Config where
  Bucket : String
  Endpoint : String
  AccessID : String
  AccessKey : String

/-- Config.validate mirrors (conf *Config) validate(): it fails with the one
fixed message when any of the four fields is the empty string. -/
def Config.validate (conf : Config) : Except String Unit :=
  if conf.Bucket = "" ∨ conf.Endpoint = "" ∨ conf.AccessID = "" ∨ conf.AccessKey = "" then
    Except.error "insufficient oss configuration information"
  else
    Except.ok ()

/-- RangeOption models the SDK option oss.Range(start, end): the two numbers
put into the bytes=start-end request header. -/
structure RangeOption where
  start : Int
  stop : Int
deriving DecidableEq

/-- GetRequest is what the embedding of getRange produces instead of calling
the network: the object name and the oss.Option list passed to GetObject. -/
structure GetRequest where
  name : String
  options : List RangeOption
deriving DecidableEq

/-- getRange mirrors (b *Bucket) getRange(ctx, name, off, length): an empty
name is rejected locally before any backend call; otherwise the options are
built exactly as in the source, where the branch guarded by length != -1
assigns the same value as the initial assignment (the guard is dead code),
and the request is issued to the backend. -/
def getRange (name : String) (off length : Int) : Except String GetRequest :=
  if name.length = 0 then
    Except.error "given object name should not empty"
  else
    let options : List RangeOption := [⟨off, off + length - 1⟩]
    let options : List RangeOption :=
      if length ≠ -1 then [⟨off, off + length - 1⟩] else options
    Except.ok ⟨name, options⟩

/-- Get mirrors (b *Bucket) Get: it delegates to getRange with off 0 and
length -1. -/
def Get (name : String) : Except String GetRequest :=
  getRange name 0 (-1)

/-- GetRange mirrors (b *Bucket) GetRange: it delegates to getRange. -/
def GetRange (name : String) (off length : Int) : Except String GetRequest :=
  getRange name off length

/-- setRange mirrors the package-level helper setRange(opts, start, end) that
the Go file defines but never calls: it validates the pair and renders the
cos range header string, or fails for an invalid range. -/
def setRange (start stop : Int) : Except String String :=
  if start = 0 ∧ stop < 0 then
    Except.ok ("bytes=" ++ toString stop)
  else if 0 < start ∧ stop = 0 then
    Except.ok ("bytes=" ++ toString start ++ "-")
  else if 0 ≤ start ∧ start ≤ stop then
    Except.ok ("bytes=" ++ toString start ++ "-" ++ toString stop)
  else
    Except.error ("Invalid range specified: start=" ++ toString start ++ " end=" ++ toString stop)

/-- ReadErr is the error part of one io.Reader.Read result: nil, io.EOF, or
any other error. -/
inductive ReadErr where
  | ok
  | eof
  | fail (msg : String)
deriving DecidableEq

/-- ReadStep is one result of r.Read(buf): the bytes delivered (n bytes) and
the error value returned alongside them. -/
structure ReadStep where
  bytes : List Nat
  err : ReadErr
deriving DecidableEq

/-- UploadEnv is the oracle for the side-effecting steps of Upload: for each
local-filesystem or backend call, whether it fails and with what message. -/
structure UploadEnv where
  createErr : Option String
  closeErr : Option String
  writeErr : Option String
  flushErr : Option String
  uploadErr : Option String
  removeErr : Option String
deriving DecidableEq

/-- UploadOutcome is how the Go Upload call ends: a runtime panic, a returned
non-nil error, or a nil return. -/
inductive UploadOutcome where
  | panicked (msg : String)
  | errored (msg : String)
  | completed
deriving DecidableEq

/-- UploadResult records the outcome of Upload together with which side
effects ran: whether bkt.UploadFile was invoked, whether os.Remove of the
scratch file was invoked, and the bytes staged into the scratch file. -/
structure UploadResult where
  outcome : UploadOutcome
  uploadFileCalled : Bool
  removeCalled : Bool
  staged : List Nat
deriving DecidableEq

/-- readChunks mirrors the read loop of Upload: each step panics on a non-EOF
read error, stops at n == 0, panics if the buffered write fails, and
otherwise appends the chunk to the scratch content.  An exhausted reader
behaves like Read returning (0, io.EOF). -/
def readChunks (writeErr : Option String) : List ReadStep → Except String (List Nat)
  | [] => Except.ok []
  | step :: rest =>
    match step.err with
    | ReadErr.fail msg => Except.error msg
    | _ =>
      if step.bytes.length = 0 then
        Except.ok []
      else
        match writeErr with
        | some msg => Except.error msg
        | none =>
          match readChunks writeErr rest with
          | Except.error msg => Except.error msg
          | Except.ok tail => Except.ok (step.bytes ++ tail)

/-- tmpFilename is the fixed scratch path used by Upload. -/
def tmpFilename : String := "/tmp/thanos.tmp"

/-- Upload mirrors (b *Bucket) Upload step by step: os.Create panics on
failure (before the deferred Close is registered); the read/write loop panics
on its failures; w.Flush panics on failure; bkt.UploadFile failure returns
the wrapped error without removing the scratch file; os.Remove failure
returns the wrapped remove error; otherwise nil is returned.  The deferred
fo.Close runs on every exit after Create succeeded and panics on failure,
superseding the pending result. -/
def Upload (env : UploadEnv) (name : String) (reader : List ReadStep) : UploadResult :=
  match env.createErr with
  | some msg => ⟨UploadOutcome.panicked msg, false, false, []⟩
  | none =>
    let deferClose : UploadResult → UploadResult := fun r =>
      match env.closeErr with
      | some msg => ⟨UploadOutcome.panicked msg, r.uploadFileCalled, r.removeCalled, r.staged⟩
      | none => r
    match readChunks env.writeErr reader with
    | Except.error msg => deferClose ⟨UploadOutcome.panicked msg, false, false, []⟩
    | Except.ok staged =>
      match env.flushErr with
      | some msg => deferClose ⟨UploadOutcome.panicked msg, false, false, staged⟩
      | none =>
        match env.uploadErr with
        | some msg =>
          deferClose ⟨UploadOutcome.errored ("upload oss object: " ++ msg), true, false, staged⟩
        | none =>
          match env.removeErr with
          | some msg =>
            deferClose ⟨UploadOutcome.errored ("deleted tmp uploadFile: " ++ msg), true, true, staged⟩
          | none => deferClose ⟨UploadOutcome.completed, true, true, staged⟩

/-- isPrefixChars p l decides whether the char list p starts the char list l. -/
def isPrefixChars : List Char → List Char → Bool
  | [], _ => true
  | _ :: _, [] => false
  | p :: ps, c :: cs => p = c && isPrefixChars ps cs

/-- containsChars pat l decides whether pat occurs contiguously inside l. -/
def containsChars (pat : List Char) : List Char → Bool
  | [] => isPrefixChars pat []
  | c :: cs => isPrefixChars pat (c :: cs) || containsChars pat cs

/-- strContains mirrors strings.Contains(s, substr). -/
def strContains (s pat : String) : Bool :=
  containsChars pat.data s.data

/-- IsObjNotFoundErr mirrors (b *Bucket) IsObjNotFoundErr: a substring test
for StatusCode=404 on the error text. -/
def IsObjNotFoundErr (errText : String) : Bool :=
  strContains errText "StatusCode=404"

/-- OssError models the error values the backend SDK can hand to the adapter:
either a service response error carrying an HTTP status and an OSS error
code (rendered by the SDK as the text
oss: service returned error: StatusCode=..., ErrorCode=..., ...), or a
transport-level error with free-form text. -/
inductive OssError where
  | service (statusCode : Nat) (code : String) (message : String) (requestId : String)
  | transport (message : String)
deriving DecidableEq

/-- OssError.errText renders the error text seen by err.Error(), following
the SDK format for service errors. -/
def OssError.errText : OssError → String
  | OssError.service statusCode code message requestId =>
      ("oss: service returned error: StatusCode=" ++ toString statusCode) ++
        (", ErrorCode=" ++ code) ++ (", ErrorMessage=" ++ message) ++
        (", RequestId=" ++ requestId)
  | OssError.transport message => message

/-- specIndicatesObjectNotFound is the spec-side predicate of the Error
Classifier contract, modelled from the spec words: an error specifically
indicates that the named object does not exist exactly when it is the
backend status signal for a missing key, which for OSS is a service response
with status 404 and error code NoSuchKey. -/
def specIndicatesObjectNotFound : OssError → Bool
  | OssError.service statusCode code _ _ => statusCode = 404 && code = "NoSuchKey"
  | OssError.transport _ => false

/-- Page models one oss.ListObjectsResult: the concrete object keys, the
common prefixes, the continuation marker for the next page, and the
truncation flag saying whether more pages follow. -/
structure Page where
  objects : List String
  commonPrefixes : List String
  nextMarker : String
  isTruncated : Bool

/-- pageEntries is the combined entry list the loop body builds for a page:
all concrete keys first, then all common prefixes, exactly as the two
append loops in the source build listNames. -/
def pageEntries (p : Page) : List String :=
  p.objects ++ p.commonPrefixes

/-- visitEntries runs the visitor over an entry list the way the source loop
does, and additionally records the entries actually handed to the visitor:
it stops at the first entry on which the visitor returns an error. -/
def visitEntries {ε : Type} (f : String → Option ε) : List String → List String × Option ε
  | [] => ([], none)
  | x :: xs =>
    match f x with
    | some e => ([x], some e)
    | none => (x :: (visitEntries f xs).1, (visitEntries f xs).2)

/-- hasSuffix mirrors strings.HasSuffix(s, suffix). -/
def hasSuffix (s suf : String) : Bool :=
  decide (suf.data.length ≤ s.data.length) &&
    s.data.drop (s.data.length - suf.data.length) = suf.data

/-- trimSuffix mirrors strings.TrimSuffix(s, suffix): it removes one final
occurrence of the suffix when present. -/
def trimSuffix (s suf : String) : String :=
  if hasSuffix s suf then
    String.mk (s.data.take (s.data.length - suf.data.length))
  else
    s

/-- normalizeDir mirrors the first statement of Iter: a non-empty dir is
rewritten to strings.TrimSuffix(dir, dirDelim) + dirDelim, the empty dir is
left alone. -/
def normalizeDir (dir : String) : String :=
  if dir ≠ "" then trimSuffix dir "/" ++ "/" else dir

/-- iterLoop mirrors the for loop of Iter over a backend already fixed to
one prefix: each round asks the backend for the page at the current marker
(a backend error is returned as the result), visits the page entries, and
either returns the visitor error, recurses on the next marker while the
page is truncated, or stops.  The fuel bounds the number of pages requested;
none means the fuel ran out before the backend reported the last page.  The
returned list records the entries handed to the visitor in order. -/
def iterLoop {ε : Type} (backend : String → Except ε Page) (f : String → Option ε) :
    Nat → String → Option (List String × Option ε)
  | 0, _ => none
  | Nat.succ fuel, marker =>
    match backend marker with
    | Except.error e => some ([], some e)
    | Except.ok lor =>
      match (visitEntries f (pageEntries lor)).2 with
      | some _ => some (visitEntries f (pageEntries lor))
      | none =>
        if lor.isTruncated then
          match iterLoop backend f fuel lor.nextMarker with
          | none => none
          | some r2 => some ((visitEntries f (pageEntries lor)).1 ++ r2.1, r2.2)
        else
          some (visitEntries f (pageEntries lor))

/-- Iter mirrors (b *Bucket) Iter: it normalizes the dir and starts the page
loop at the empty marker.  The backend takes the prefix passed through
oss.Prefix and the marker; the fixed MaxKeys(1000) and Delimiter are folded
into the opaque backend. -/
def Iter {ε : Type} (backend : String → String → Except ε Page) (dir : String)
    (f : String → Option ε) (fuel : Nat) : Option (List String × Option ε) :=
  iterLoop (backend (normalizeDir dir)) f fuel ""

/-- PageChain backend marker ps says that starting at marker the backend
serves exactly the finite page sequence ps: each page is served at the
marker produced by its predecessor, every page but the last carries the
truncation flag, and the last page does not. -/
inductive PageChain (backend : String → Except ε Page) : String → List Page → Prop where
  | last : ∀ (m : String) (p : Page), backend m = Except.ok p → p.isTruncated = false →
      PageChain backend m [p]
  | more : ∀ (m : String) (p : Page) (ps : List Page), backend m = Except.ok p →
      p.isTruncated = true → PageChain backend p.nextMarker ps →
      PageChain backend m (p :: ps)

/-- visitEntries on a visitor that never fails visits the whole list and
returns no error. -/
theorem visitEntries_none {ε : Type} (f : String → Option ε) (h : ∀ s, f s = none) :
    ∀ l : List String, visitEntries f l = (l, none) := by
  intro l
  induction l with
  | nil => rfl
  | cons x xs ih => simp [visitEntries, h x, ih]

/-- visitEntries distributes over append when the first part raised no
error. -/
theorem visitEntries_append_ok {ε : Type} (f : String → Option ε) (a b : List String)
    (h : (visitEntries f a).2 = none) :
    visitEntries f (a ++ b) =
      ((visitEntries f a).1 ++ (visitEntries f b).1, (visitEntries f b).2) := by
  induction a with
  | nil => simp [visitEntries]
  | cons x xs ih =>
    cases hfx : f x with
    | some e => simp [visitEntries, hfx] at h
    | none =>
      have h2 : (visitEntries f xs).2 = none := by simpa [visitEntries, hfx] using h
      simp [visitEntries, hfx, ih h2]

/-- visitEntries never looks past the first part once that part raised an
error. -/
theorem visitEntries_append_err {ε : Type} (f : String → Option ε) (a b : List String) (e : ε)
    (h : (visitEntries f a).2 = some e) :
    visitEntries f (a ++ b) = visitEntries f a := by
  induction a with
  | nil => simp [visitEntries] at h
  | cons x xs ih =>
    cases hfx : f x with
    | some e2 => simp [visitEntries, hfx]
    | none =>
      have h2 : (visitEntries f xs).2 = some e := by simpa [visitEntries, hfx] using h
      simp [visitEntries, hfx, ih h2]

/-- visitEntries stops exactly at the first failing entry: the visited trace
is the clean part followed by that entry, and the result is its error. -/
theorem visitEntries_first_err {ε : Type} (f : String → Option ε) :
    ∀ (pre : List String) (x : String) (post : List String) (e : ε),
      (∀ y ∈ pre, f y = none) → f x = some e →
      visitEntries f (pre ++ x :: post) = (pre ++ [x], some e) := by
  intro pre
  induction pre with
  | nil =>
    intro x post e _ hx
    simp [visitEntries, hx]
  | cons y ys ih =>
    intro x post e hpre hx
    have hy : f y = none := hpre y (by simp)
    have hys : ∀ z ∈ ys, f z = none := fun z hz => hpre z (by simp [hz])
    simp [visitEntries, hy, ih x post e hys hx]

/-- iterLoop over a finite page chain with enough fuel behaves exactly like
one visitEntries run over the concatenation of the page entry lists. -/
theorem iterLoop_chain {ε : Type} (backend : String → Except ε Page) (f : String → Option ε)
    {m : String} {ps : List Page} (hchain : PageChain backend m ps) :
    ∀ fuel : Nat, ps.length ≤ fuel →
      iterLoop backend f fuel m = some (visitEntries f ((ps.map pageEntries).flatten)) := by
  induction hchain with
  | last m p hbk htr =>
    intro fuel hfuel
    match fuel, hfuel with
    | Nat.succ n, _ =>
      cases hr : (visitEntries f (pageEntries p)).2 with
      | some e =>
        have hall : visitEntries f (pageEntries p ++ []) = visitEntries f (pageEntries p) := by
          simp
        simp [iterLoop, hbk, hr, hall]
      | none =>
        simp [iterLoop, hbk, hr, htr]
  | more m p ps hbk htr hrest ih =>
    intro fuel hfuel
    match fuel, hfuel with
    | Nat.succ n, hf =>
      have hn : ps.length ≤ n := Nat.le_of_succ_le_succ (by simpa using hf)
      have hrec := ih n hn
      cases hr : (visitEntries f (pageEntries p)).2 with
      | some e =>
        have hall := visitEntries_append_err f (pageEntries p) ((ps.map pageEntries).flatten) e hr
        simp [iterLoop, hbk, hr, hall]
      | none =>
        have hall := visitEntries_append_ok f (pageEntries p) ((ps.map pageEntries).flatten) hr
        simp [iterLoop, hbk, hr, htr, hrec, hall]

/-- C2: the ranged path is shared, and for length greater than 0 the request
carries the range [off, off + length - 1]; but at the failing input
(offset 0, length -1) the code does not request the entire object: the
branch guarded by length != -1 assigns the same options as the initial
assignment, so a Range(0, -2) option is attached to the whole-object Get
instead of no range at all. -/
theorem Get_whole_object_sends_degenerate_range :
    Get "obj" = Except.ok ⟨"obj", [⟨0, -2⟩]⟩ ∧
    GetRange "obj" 0 (-1) = Get "obj" ∧
    GetRange "obj" 3 7 = Except.ok ⟨"obj", [⟨3, 9⟩]⟩ :=
  ⟨rfl, rfl, rfl⟩

/-- C3: at the failing inputs length = 0 and length = -3 the code performs
no range validation at all: it proceeds to the backend call with a
degenerate range option instead of failing with an InvalidRangeError, even
though the unused helper setRange in the same file rejects exactly such a
pair. -/
theorem GetRange_invalid_length_reaches_backend :
    GetRange "obj" 5 0 = Except.ok ⟨"obj", [⟨5, 4⟩]⟩ ∧
    GetRange "obj" 7 (-3) = Except.ok ⟨"obj", [⟨7, 3⟩]⟩ ∧
    setRange 5 4 = Except.error "Invalid range specified: start=5 end=4" :=
  ⟨rfl, rfl, rfl⟩

/-- C4: at the failing input, a reader whose second Read reports an error,
Upload panics with that error instead of returning it: the read loop wraps
every read-side and local-write failure in panic(err). -/
theorem Upload_panics_on_read_error :
    Upload ⟨none, none, none, none, none, none⟩ "obj"
        [⟨[7, 7], ReadErr.ok⟩, ⟨[], ReadErr.fail "read: connection reset"⟩] =
      ⟨UploadOutcome.panicked "read: connection reset", false, false, []⟩ :=
  rfl

/-- C5: at the failing inputs, when bkt.UploadFile fails Upload returns the
wrapped backend error without ever invoking os.Remove on the scratch file
(no cleanup on the failure path), and when the upload succeeds but os.Remove
fails the remove error becomes the primary returned result instead of a
non-fatal warning. -/
theorem Upload_cleanup_only_on_success_path :
    Upload ⟨none, none, none, none, some "service unavailable", none⟩ "obj"
        [⟨[1, 2], ReadErr.ok⟩] =
      ⟨UploadOutcome.errored "upload oss object: service unavailable", true, false, [1, 2]⟩ ∧
    Upload ⟨none, none, none, none, none, some "operation not permitted"⟩ "obj"
        [⟨[1, 2], ReadErr.ok⟩] =
      ⟨UploadOutcome.errored "deleted tmp uploadFile: operation not permitted", true, true, [1, 2]⟩ :=
  ⟨rfl, rfl⟩

/-- C8 counterexample: validate rejects a config whose only empty field is
the bucket, and one whose only empty field is the endpoint, with the same
fixed message, and that message mentions none of the four field names, so
the error does not name which field is missing. -/
theorem validate_fixed_message_counterexample :
    Config.validate ⟨"", "oss.example.com", "id-1", "key-1"⟩ =
      Except.error "insufficient oss configuration information" ∧
    Config.validate ⟨"bkt-1", "", "id-1", "key-1"⟩ =
      Except.error "insufficient oss configuration information" ∧
    strContains "insufficient oss configuration information" "bucket" = false ∧
    strContains "insufficient oss configuration information" "endpoint" = false ∧
    strContains "insufficient oss configuration information" "access" = false :=
  ⟨rfl, rfl, rfl, rfl, rfl⟩

/-- C8 amended: validate succeeds exactly when all four fields are
non-empty, and on any failure it returns the one fixed ConfigError message,
which names no particular field. -/
theorem validate_succeeds_iff_all_fields_nonempty (c : Config) :
    (Config.validate c = Except.ok () ↔
      (c.Bucket ≠ "" ∧ c.Endpoint ≠ "" ∧ c.AccessID ≠ "" ∧ c.AccessKey ≠ "")) ∧
    (Config.validate c = Except.ok () ∨
      Config.validate c = Except.error "insufficient oss configuration information") := by
  by_cases h : c.Bucket = "" ∨ c.Endpoint = "" ∨ c.AccessID = "" ∨ c.AccessKey = ""
  · constructor
    · simp [Config.validate, h]
      tauto
    · right
      simp [Config.validate, h]
  · constructor
    · simp [Config.validate, h]
      tauto
    · left
      simp [Config.validate, h]

/-- C8 amended, witness at a fully populated config. -/
theorem validate_succeeds_iff_all_fields_nonempty_witness :
    (Config.validate ⟨"bkt-1", "oss.example.com", "id-1", "key-1"⟩ = Except.ok () ↔
      (("bkt-1" : String) ≠ "" ∧ ("oss.example.com" : String) ≠ "" ∧
        ("id-1" : String) ≠ "" ∧ ("key-1" : String) ≠ "")) ∧
    (Config.validate ⟨"bkt-1", "oss.example.com", "id-1", "key-1"⟩ = Except.ok () ∨
      Config.validate ⟨"bkt-1", "oss.example.com", "id-1", "key-1"⟩ =
        Except.error "insufficient oss configuration information") :=
  validate_succeeds_iff_all_fields_nonempty ⟨"bkt-1", "oss.example.com", "id-1", "key-1"⟩

/-- C10: for every offset and length, Get and GetRange with an empty object
name return the local error before the backend request is built, leaving
the backend untouched. -/
theorem GetRange_empty_name_rejected_locally (off length : Int) :
    GetRange "" off length = Except.error "given object name should not empty" ∧
    Get "" = Except.error "given object name should not empty" :=
  ⟨rfl, rfl⟩

/-- strData_append: string append concatenates the underlying char lists. -/
theorem strData_append (x y : String) : (x ++ y).data = x.data ++ y.data := by
  cases x
  cases y
  rfl

/-- isPrefixChars is stable under extending the scanned list on the right. -/
theorem isPrefixChars_append (p : List Char) :
    ∀ x y : List Char, isPrefixChars p x = true → isPrefixChars p (x ++ y) = true := by
  induction p with
  | nil => intro x y _; rfl
  | cons a as ih =>
    intro x y h
    cases x with
    | nil => simp [isPrefixChars] at h
    | cons b bs =>
      simp [isPrefixChars] at h ⊢
      exact ⟨h.1, ih bs y h.2⟩

/-- containsChars with an empty pattern always succeeds. -/
theorem containsChars_nil_pat (l : List Char) : containsChars [] l = true := by
  cases l <;> simp [containsChars, isPrefixChars]

/-- containsChars is stable under extending the scanned list on the right. -/
theorem containsChars_append_left (pat : List Char) :
    ∀ x y : List Char, containsChars pat x = true → containsChars pat (x ++ y) = true := by
  intro x
  induction x with
  | nil =>
    intro y h
    cases pat with
    | nil => exact containsChars_nil_pat y
    | cons a as => simp [containsChars, isPrefixChars] at h
  | cons c cs ih =>
    intro y h
    simp only [containsChars, Bool.or_eq_true] at h ⊢
    cases h with
    | inl hp =>
      left
      have := isPrefixChars_append pat (c :: cs) y hp
      simpa using this
    | inr hc => right; exact ih y hc

/-- C9 counterexample: a 404 NoSuchBucket response reports that the bucket,
not the named object, is absent, yet IsObjNotFoundErr classifies its text
as object-not-found, so the classifier does not return true only for errors
that specifically indicate the named object does not exist. -/
theorem IsObjNotFoundErr_bucket_missing_counterexample :
    IsObjNotFoundErr (OssError.errText (OssError.service 404 "NoSuchBucket"
      "The specified bucket does not exist." "reqid-2")) = true ∧
    specIndicatesObjectNotFound (OssError.service 404 "NoSuchBucket"
      "The specified bucket does not exist." "reqid-2") = false :=
  ⟨rfl, rfl⟩

/-- C9 amended: the classifier is a pure substring test for StatusCode=404
on the error text: every service error with status 404 is classified
not-found whatever its error code and message, while errors whose rendered
text lacks that substring, such as a 403 permission response or a transport
failure, are not classified not-found. -/
theorem IsObjNotFoundErr_matches_status_404_text (code message requestId : String) :
    IsObjNotFoundErr (OssError.errText (OssError.service 404 code message requestId)) = true ∧
    IsObjNotFoundErr (OssError.errText (OssError.service 403 "AccessDenied"
      "Access denied by bucket policy" "reqid-1")) = false ∧
    IsObjNotFoundErr (OssError.errText
      (OssError.transport "dial tcp 10.0.0.1:80: connect: connection refused")) = false := by
  refine ⟨?_, rfl, rfl⟩
  show strContains _ "StatusCode=404" = true
  unfold strContains OssError.errText
  rw [strData_append, strData_append, strData_append]
  apply containsChars_append_left
  apply containsChars_append_left
  rw [strData_append]
  apply containsChars_append_left
  decide

/-- Appending the delimiter to any string gives a non-empty string. -/
theorem append_slash_ne_empty (d : String) : d ++ "/" ≠ "" := by
  intro h
  have hd : (d ++ "/").data = ([] : List Char) := congrArg String.data h
  rw [strData_append] at hd
  simp at hd

/-- Every string extended with the delimiter has the delimiter suffix. -/
theorem hasSuffix_append_slash (x : String) : hasSuffix (x ++ "/") "/" = true := by
  unfold hasSuffix
  rw [strData_append]
  simp

/-- trimSuffix removes exactly the delimiter just appended. -/
theorem trimSuffix_append_slash (d : String) : trimSuffix (d ++ "/") "/" = d := by
  unfold trimSuffix
  rw [if_pos (hasSuffix_append_slash d), strData_append]
  have ht : ((d.data ++ "/".data).length - "/".data.length) = d.data.length := by
    simp
  rw [ht]
  have ht2 : (d.data ++ "/".data).take d.data.length = d.data := by
    simp
  rw [ht2]

/-- trimSuffix leaves a string without the delimiter suffix unchanged. -/
theorem trimSuffix_no_slash (d : String) (h : hasSuffix d "/" = false) :
    trimSuffix d "/" = d := by
  unfold trimSuffix
  rw [if_neg]
  simp [h]

/-- normalizeDir identifies a dir without the trailing delimiter with the
same dir carrying it. -/
theorem normalizeDir_append_slash (d : String) (h1 : d ≠ "") (h2 : hasSuffix d "/" = false) :
    normalizeDir d = normalizeDir (d ++ "/") := by
  unfold normalizeDir
  rw [if_pos h1, if_pos (append_slash_ne_empty d), trimSuffix_no_slash d h2,
    trimSuffix_append_slash d]

/-- C1: over any finite page chain the backend serves for the normalized
prefix, with a visitor that never fails and fuel at least the number of
pages, Iter terminates without error and hands the visitor exactly the
concatenation of the page entry lists: within each page all concrete keys
first, then all common prefixes, pages in cursor order, and each served
entry exactly once; an empty final page contributes no entries and is not
an error. -/
theorem Iter_visits_every_entry_exactly_once {ε : Type}
    (backend : String → String → Except ε Page) (dir : String) (f : String → Option ε)
    (ps : List Page) (fuel : Nat)
    (hchain : PageChain (backend (normalizeDir dir)) "" ps)
    (hok : ∀ s, f s = none) (hfuel : ps.length ≤ fuel) :
    Iter backend dir f fuel = some ((ps.map pageEntries).flatten, none) := by
  unfold Iter
  rw [iterLoop_chain (backend (normalizeDir dir)) f hchain fuel hfuel,
    visitEntries_none f hok]

/-- testPage1 and testPage2 form a two-page listing for the witnesses; the
last page is empty. -/
def testPage1 : Page :=
  ⟨["a/obj1", "a/obj2"], ["a/sub1/"], "a/obj2", true⟩

/-- testPage2 is the empty, final page of the witness listing. -/
def testPage2 : Page :=
  ⟨[], [], "", false⟩

/-- testBackend serves testPage1 at the empty marker and testPage2 at every
other marker, for any prefix. -/
def testBackend : String → String → Except Unit Page :=
  fun _ marker => if marker = "" then Except.ok testPage1 else Except.ok testPage2

/-- C1 witness: on the concrete two-page backend the visitor sees both keys,
then the common prefix, and the empty final page ends the listing without
error. -/
theorem Iter_visits_every_entry_exactly_once_witness :
    Iter testBackend "a" (fun _ => (none : Option Unit)) 2 =
      some (["a/obj1", "a/obj2", "a/sub1/"], none) := by
  have h := Iter_visits_every_entry_exactly_once testBackend "a" (fun _ => none)
    [testPage1, testPage2] 2
    (PageChain.more "" testPage1 [testPage2] rfl rfl
      (PageChain.last testPage1.nextMarker testPage2 rfl rfl))
    (fun _ => rfl) (by decide)
  simpa [testPage1, testPage2, pageEntries] using h

/-- C7: if the visitor fails on some entry of the listing, Iter stops at
that entry: the visitor is called on the clean entries before it and on the
failing entry only, and Iter returns exactly that error, visiting nothing
afterwards in that page or any later page. -/
theorem Iter_visitor_error_short_circuits {ε : Type}
    (backend : String → String → Except ε Page) (dir : String) (f : String → Option ε)
    (ps : List Page) (fuel : Nat) (pre post : List String) (x : String) (e : ε)
    (hchain : PageChain (backend (normalizeDir dir)) "" ps)
    (hsplit : (ps.map pageEntries).flatten = pre ++ x :: post)
    (hpre : ∀ y ∈ pre, f y = none) (hx : f x = some e) (hfuel : ps.length ≤ fuel) :
    Iter backend dir f fuel = some (pre ++ [x], some e) := by
  unfold Iter
  rw [iterLoop_chain (backend (normalizeDir dir)) f hchain fuel hfuel, hsplit,
    visitEntries_first_err f pre x post e hpre hx]

/-- testPageS is a single final page with four entries for the
short-circuit witness. -/
def testPageS : Page :=
  ⟨["a/obj1", "a/obj2"], ["a/sub1/", "a/sub2/"], "", false⟩

/-- testBackendS serves testPageS at every marker and prefix. -/
def testBackendS : String → String → Except String Page :=
  fun _ _ => Except.ok testPageS

/-- testVisitor fails exactly on the third entry of testPageS. -/
def testVisitor : String → Option String :=
  fun s => if s = "a/sub1/" then some "visitor boom" else none

/-- C7 witness: the visitor fails on the third entry, Iter returns exactly
that error, and the fourth entry is never visited. -/
theorem Iter_visitor_error_short_circuits_witness :
    Iter testBackendS "a" testVisitor 1 =
      some (["a/obj1", "a/obj2", "a/sub1/"], some "visitor boom") := by
  have h := Iter_visitor_error_short_circuits testBackendS "a" testVisitor [testPageS] 1
    ["a/obj1", "a/obj2"] ["a/sub2/"] "a/sub1/" "visitor boom"
    (PageChain.last "" testPageS rfl rfl) rfl (by decide) rfl (by decide)
  simpa using h

/-- C6: a non-empty dir is normalized to end with the delimiter, a dir with
and without the trailing delimiter drive identical listings, and the empty
dir is left alone, listing the bucket root. -/
theorem Iter_normalizes_nonempty_dir {ε : Type}
    (backend : String → String → Except ε Page) (f : String → Option ε) (fuel : Nat)
    (d : String) (h1 : d ≠ "") (h2 : hasSuffix d "/" = false) :
    hasSuffix (normalizeDir d) "/" = true ∧
    Iter backend d f fuel = Iter backend (d ++ "/") f fuel ∧
    normalizeDir "" = "" := by
  refine ⟨?_, ?_, rfl⟩
  · unfold normalizeDir
    rw [if_pos h1]
    exact hasSuffix_append_slash (trimSuffix d "/")
  · unfold Iter
    rw [normalizeDir_append_slash d h1 h2]

/-- C6 witness: at the concrete dir without a trailing delimiter, the
normalized dir carries the delimiter and the two listings coincide. -/
theorem Iter_normalizes_nonempty_dir_witness :
    hasSuffix (normalizeDir "a") "/" = true ∧
    Iter testBackend "a" (fun _ => (none : Option Unit)) 2 =
      Iter testBackend "a/" (fun _ => (none : Option Unit)) 2 ∧
    normalizeDir "" = "" :=
  Iter_normalizes_nonempty_dir testBackend (fun _ => none) 2 "a" (by decide) (by decide)
